import Mathlib

/-!
Verification of the pptree repository (src/app2.py), a Streamlit app that
extracts a presentation style from an uploaded PDF via a multimodal API,
extracts content requirements from a natural-language request, and asks the
API for an SVG diagram combining the two.

The embedding models Python values exchanged through `json.loads` by the
inductive type `PyVal`; Python dictionaries are association lists with
unique keys (uniqueness is a hypothesis where a theorem needs it).
Python exceptions that the source catches are modelled by `Option`
(`none` = the caught-exception branch); `st.error` / `st.warning` calls and
`requests.post` calls are counted in an `Eff` record so that claims about
"one request, one report" can be stated.
-/

/-- Python value as produced by `json.loads` (floats are not needed by any
claim and are omitted). -/
inductive PyVal where
  | vNull : PyVal
  | vBool : Bool → PyVal
  | vInt : Int → PyVal
  | vStr : String → PyVal
  | vList : List PyVal → PyVal
  | vDict : List (String × PyVal) → PyVal

/-- A Python dictionary with string keys, as an association list. -/
abbrev Dict := List (String × PyVal)

/-- Python truthiness of a value (`if v:`). -/
def truthy : PyVal → Bool
  | .vNull => false
  | .vBool b => b
  | .vInt i => i != 0
  | .vStr s => !s.isEmpty
  | .vList l => !l.isEmpty
  | .vDict d => !d.isEmpty

/-- Dictionary lookup, `d.get(k)` / `k in d`; `none` when the key is absent. -/
def dget (d : Dict) (k : String) : Option PyVal :=
  match d with
  | [] => none
  | (k1, v1) :: rest => if k1 = k then some v1 else dget rest k

/-- Left-biased choice on optional values (first binding wins). -/
def oOr : Option PyVal → Option PyVal → Option PyVal
  | some x, _ => some x
  | none, b => b

/-- Items of a category value: `.items()` of a dict.  In the source a truthy
non-dict category value would raise at `.items()`; the merge theorems restrict
inputs to dict-shaped categories (`wellShapedStyle`), where this case is
unreachable. -/
def catItems : PyVal → Dict
  | .vDict d => d
  | _ => []

/-- Inner loop of `merge_styles` over one category dict (`src/app2.py`
lines 185-187 and 192-194): insert each item whose key is not yet present in
the accumulator and whose value is truthy. -/
def insertTruthyAbsent (acc : Dict) : Dict → Dict
  | [] => acc
  | (k, v) :: rest =>
    if (dget acc k).isNone && truthy v then insertTruthyAbsent (acc ++ [(k, v)]) rest
    else insertTruthyAbsent acc rest

/-- Population of one merged category dict (`src/app2.py` lines 183-194):
fold over the style list, skipping styles whose category entry is absent or
falsy, inserting first-write-wins. -/
def mergeCategory (styles : List Dict) (cat : String) : Dict :=
  styles.foldl
    (fun acc style =>
      match dget style cat with
      | some v => if truthy v then insertTruthyAbsent acc (catItems v) else acc
      | none => acc)
    []

/-- Merged `brand_description` (`src/app2.py` lines 196-199): the first truthy
value, or `""` when none exists. -/
def mergeBrand (styles : List Dict) : PyVal :=
  (styles.findSome? (fun s =>
    match dget s "brand_description" with
    | some v => if truthy v then some v else none
    | none => none)).getD (.vStr "")

/-- Merged `has_diagrams` (`src/app2.py` line 180):
`any(style.get("has_diagrams", False) for style in styles_list)`. -/
def mergeHasDiagrams (styles : List Dict) : Bool :=
  styles.any (fun s => truthy ((dget s "has_diagrams").getD (.vBool false)))

/-- Merged style record of `merge_styles` for lists of length at least two
(`src/app2.py` lines 174-199): the initial literal with the six standard keys,
after the population loops.  The source mutates nested dicts of the initial
literal in place; the embedding assembles the same final dict (same keys,
same insertion order). -/
def mergedDict (styles : List Dict) : Dict :=
  [("color_palette", .vDict (mergeCategory styles "color_palette")),
   ("typography", .vDict (mergeCategory styles "typography")),
   ("layout", .vDict (mergeCategory styles "layout")),
   ("visual_style", .vDict (mergeCategory styles "visual_style")),
   ("brand_description", mergeBrand styles),
   ("has_diagrams", .vBool (mergeHasDiagrams styles))]

/-- PPTStyleAnalyzer.merge_styles (`src/app2.py` lines 166-201).  Empty input
returns `None`; a singleton returns its element unchanged; otherwise a fresh
dict with the six standard keys is populated first-write-wins. -/
def merge_styles : List Dict → Option Dict
  | [] => none
  | [s] => some s
  | styles => some (mergedDict styles)

/-- Membership test on a list of keys (Bool-valued, for decidable witnesses). -/
def memStr (k : String) : List String → Bool
  | [] => false
  | a :: t => a = k || memStr k t

/-- Keys of a list are pairwise distinct (Python dicts cannot repeat a key). -/
def keysND : List String → Bool
  | [] => true
  | a :: t => !memStr a t && keysND t

/-- One top-level field is well shaped for merging: absent, or a dict with
distinct keys. -/
def wellShapedCat (s : Dict) (cat : String) : Bool :=
  match dget s cat with
  | some (.vDict d) => keysND (d.map Prod.fst)
  | some _ => false
  | none => true

/-- A page style is well shaped: the four category fields are dicts (with
distinct keys) when present, `brand_description` is a string when present,
and `has_diagrams` is a boolean when present.  This is exactly the shape the
model is instructed to return and the shape on which the source's merge runs
without raising. -/
def wellShapedStyle (s : Dict) : Bool :=
  wellShapedCat s "color_palette" && wellShapedCat s "typography" &&
  wellShapedCat s "layout" && wellShapedCat s "visual_style" &&
  (match dget s "brand_description" with
   | some (.vStr _) => true
   | some _ => false
   | none => true) &&
  (match dget s "has_diagrams" with
   | some (.vBool _) => true
   | some _ => false
   | none => true)

/-- Key lookup inside a named category of a merged style record. -/
def mLookup (m : Dict) (cat k : String) : Option PyVal :=
  match dget m cat with
  | some (.vDict d) => dget d k
  | _ => none

/-- Claim-side first-write-wins: the value of the first style in list order
whose category dictionary contains a truthy value for the key. -/
def firstWinsSpec : List Dict → String → String → Option PyVal
  | [], _, _ => none
  | s :: rest, cat, k =>
    match dget s cat with
    | some (.vDict d) =>
      (match dget d k with
       | some v => if truthy v then some v else firstWinsSpec rest cat k
       | none => firstWinsSpec rest cat k)
    | _ => firstWinsSpec rest cat k

/-- Claim-side merged brand description: the first non-empty
`brand_description` string in list order, defaulting to `""`. -/
def brandSpec : List Dict → PyVal
  | [] => .vStr ""
  | s :: rest =>
    match dget s "brand_description" with
    | some (.vStr t) => if t.isEmpty then brandSpec rest else .vStr t
    | _ => brandSpec rest

/-- Claim-side merged `has_diagrams`: disjunction of the inputs'
`has_diagrams` booleans, missing treated as false. -/
def diagramsSpec (styles : List Dict) : Bool :=
  styles.any (fun s =>
    match dget s "has_diagrams" with
    | some (.vBool b) => b
    | _ => false)

theorem oOr_none_right (a : Option PyVal) : oOr a none = a := by
  cases a <;> rfl

theorem oOr_assoc (a b c : Option PyVal) : oOr (oOr a b) c = oOr a (oOr b c) := by
  cases a <;> rfl

theorem dget_append (d1 d2 : Dict) (k : String) :
    dget (d1 ++ d2) k = oOr (dget d1 k) (dget d2 k) := by
  induction d1 with
  | nil => rfl
  | cons hd tl ih =>
    obtain ⟨k1, v1⟩ := hd
    by_cases h : k1 = k
    · simp [dget, h, oOr]
    · simp [dget, h, ih]

/-- First truthy item with the given key, scanning a category dict in
iteration order. -/
def firstTruthyItem : Dict → String → Option PyVal
  | [], _ => none
  | (k1, v1) :: rest, k =>
    if k1 = k && truthy v1 then some v1 else firstTruthyItem rest k

theorem firstTruthyItem_of_not_mem (d : Dict) (k : String)
    (h : memStr k (d.map Prod.fst) = false) : firstTruthyItem d k = none := by
  induction d with
  | nil => rfl
  | cons hd tl ih =>
    obtain ⟨k1, v1⟩ := hd
    simp only [List.map_cons, memStr, Bool.or_eq_false_iff, decide_eq_false_iff_not] at h
    simp only [firstTruthyItem]
    rw [if_neg, ih h.2]
    simp [h.1]

theorem dget_none_of_not_mem (d : Dict) (k : String)
    (h : memStr k (d.map Prod.fst) = false) : dget d k = none := by
  induction d with
  | nil => rfl
  | cons hd tl ih =>
    obtain ⟨k1, v1⟩ := hd
    simp only [List.map_cons, memStr, Bool.or_eq_false_iff, decide_eq_false_iff_not] at h
    simp [dget, h.1, ih h.2]

/-- On a dict with distinct keys, the first truthy item at a key is the
(unique) binding of that key filtered by truthiness. -/
theorem firstTruthyItem_nodup (d : Dict) (k : String)
    (h : keysND (d.map Prod.fst) = true) :
    firstTruthyItem d k =
      (match dget d k with
       | some v => if truthy v then some v else none
       | none => none) := by
  induction d with
  | nil => rfl
  | cons hd tl ih =>
    obtain ⟨k1, v1⟩ := hd
    simp only [List.map_cons, keysND, Bool.and_eq_true, Bool.not_eq_true'] at h
    by_cases hk : k1 = k
    · subst hk
      simp only [firstTruthyItem, dget, if_pos rfl]
      by_cases ht : truthy v1
      · simp [ht]
      · simp only [ht, Bool.and_false, if_neg Bool.false_ne_true]
        rw [firstTruthyItem_of_not_mem tl k1 h.1]
        simp [ht]
    · simp only [firstTruthyItem, dget, if_neg hk]
      rw [if_neg, ih h.2]
      simp [hk]

theorem insertTruthyAbsent_get (items : Dict) (acc : Dict) (k : String) :
    dget (insertTruthyAbsent acc items) k =
      oOr (dget acc k) (firstTruthyItem items k) := by
  induction items generalizing acc with
  | nil => simp [insertTruthyAbsent, firstTruthyItem, oOr_none_right]
  | cons hd tl ih =>
    obtain ⟨k1, v1⟩ := hd
    simp only [insertTruthyAbsent, firstTruthyItem]
    by_cases hc : ((dget acc k1).isNone && truthy v1) = true
    · rw [if_pos hc, ih]
      have h1 : (dget acc k1).isNone = true := (Bool.and_eq_true _ _ ▸ hc).1
      have h2 : truthy v1 = true := (Bool.and_eq_true _ _ ▸ hc).2
      by_cases hk : k1 = k
      · subst hk
        have hn : dget acc k1 = none := Option.isNone_iff_eq_none.mp h1
        simp [dget_append, hn, dget, h2, oOr]
      · have hnone : dget [(k1, v1)] k = none := by simp [dget, hk]
        rw [dget_append, hnone, oOr_none_right]
        simp [hk]
    · rw [if_neg hc, ih]
      by_cases hk : k1 = k
      · subst hk
        by_cases ht : truthy v1 = true
        · rcases hacc : dget acc k1 with _ | w
          · exact absurd (by simp [hacc, ht]) hc
          · simp [hacc, oOr, ht]
        · simp [ht]
      · rw [if_neg]
        simp [hk]

/-- Contribution of a single style to a merged category, as performed by the
source's loop. -/
def styleContrib (style : Dict) (cat k : String) : Option PyVal :=
  match dget style cat with
  | some v => if truthy v then firstTruthyItem (catItems v) k else none
  | none => none

/-- First-wins over the whole style list, code side. -/
def firstContrib : List Dict → String → String → Option PyVal
  | [], _, _ => none
  | s :: rest, cat, k => oOr (styleContrib s cat k) (firstContrib rest cat k)

theorem mergeCategory_fold (styles : List Dict) (acc : Dict) (cat k : String) :
    dget (styles.foldl
      (fun acc style =>
        match dget style cat with
        | some v => if truthy v then insertTruthyAbsent acc (catItems v) else acc
        | none => acc)
      acc) k = oOr (dget acc k) (firstContrib styles cat k) := by
  induction styles generalizing acc with
  | nil => simp [firstContrib, oOr_none_right]
  | cons s rest ih =>
    simp only [List.foldl_cons, firstContrib]
    rcases hs : dget s cat with _ | v
    · simp only [hs, styleContrib]
      rw [ih]
      simp [oOr]
    · by_cases ht : truthy v = true
      · simp only [hs, ht, if_pos, styleContrib]
        rw [ih, insertTruthyAbsent_get, oOr_assoc]
      · simp only [hs, styleContrib, if_neg ht]
        rw [ih]
        simp [oOr]

theorem mergeCategory_get (styles : List Dict) (cat k : String) :
    dget (mergeCategory styles cat) k = firstContrib styles cat k := by
  rw [mergeCategory, mergeCategory_fold]
  rfl

theorem firstContrib_spec (styles : List Dict) (cat k : String)
    (hws : ∀ s ∈ styles, wellShapedCat s cat = true) :
    firstContrib styles cat k = firstWinsSpec styles cat k := by
  induction styles with
  | nil => rfl
  | cons s rest ih =>
    have hs := hws s (List.mem_cons_self s rest)
    have hrest : ∀ x ∈ rest, wellShapedCat x cat = true := fun x hx =>
      hws x (List.mem_cons_of_mem s hx)
    unfold wellShapedCat at hs
    simp only [firstContrib, firstWinsSpec, styleContrib]
    rcases hc : dget s cat with _ | v
    · simp [oOr, ih hrest]
    · rw [hc] at hs
      rcases v with _ | b | i | t | l | d
      · exact absurd hs (by simp)
      · exact absurd hs (by simp)
      · exact absurd hs (by simp)
      · exact absurd hs (by simp)
      · exact absurd hs (by simp)
      · by_cases hd : d.isEmpty
        · have hde : d = [] := by
            cases d
            · rfl
            · exact absurd hd (by simp [List.isEmpty])
          subst hde
          simp [truthy, catItems, firstTruthyItem, dget, oOr, ih hrest]
        · have ht : truthy (.vDict d) = true := by
            simp [truthy]
            simpa using hd
          dsimp only
          rw [if_pos ht]
          simp only [catItems]
          have hnd : keysND (d.map Prod.fst) = true := by simpa using hs
          rw [firstTruthyItem_nodup d k hnd]
          rcases hdk : dget d k with _ | v
          · simp [oOr, ih hrest]
          · by_cases htv : truthy v = true
            · simp [htv, oOr]
            · simp [htv, oOr, ih hrest]

theorem mergeBrand_spec (styles : List Dict)
    (hws : ∀ s ∈ styles,
      (match dget s "brand_description" with
       | some (.vStr _) => true
       | some _ => false
       | none => true) = true) :
    mergeBrand styles = brandSpec styles := by
  induction styles with
  | nil => rfl
  | cons s rest ih =>
    have hs := hws s (List.mem_cons_self s rest)
    have hrest : ∀ x ∈ rest, _ = true := fun x hx => hws x (List.mem_cons_of_mem s hx)
    simp only [mergeBrand, List.findSome?_cons, brandSpec]
    rcases hb : dget s "brand_description" with _ | v
    · simpa [mergeBrand] using ih hrest
    · rw [hb] at hs
      rcases v with _ | b | i | t | l | d
      · exact absurd hs (by simp)
      · exact absurd hs (by simp)
      · exact absurd hs (by simp)
      · by_cases he : t.isEmpty
        · have hf : truthy (.vStr t) = false := by simp [truthy, he]
          simp only [hf, Bool.false_eq_true, if_false, if_pos he]
          simpa [mergeBrand] using ih hrest
        · have htr : truthy (.vStr t) = true := by simp [truthy, he]
          simp [htr, he]
      · exact absurd hs (by simp)
      · exact absurd hs (by simp)

theorem mergeHasDiagrams_spec (styles : List Dict)
    (hws : ∀ s ∈ styles,
      (match dget s "has_diagrams" with
       | some (.vBool _) => true
       | some _ => false
       | none => true) = true) :
    mergeHasDiagrams styles = diagramsSpec styles := by
  induction styles with
  | nil => rfl
  | cons s rest ih =>
    have hs := hws s (List.mem_cons_self s rest)
    have hrest : ∀ x ∈ rest, _ = true := fun x hx => hws x (List.mem_cons_of_mem s hx)
    have ihr := ih hrest
    simp only [mergeHasDiagrams, diagramsSpec, List.any_cons] at ihr ⊢
    rw [ihr]
    rcases hb : dget s "has_diagrams" with _ | v
    · simp [Option.getD, truthy]
    · rw [hb] at hs
      rcases v with _ | b | i | t | l | d
      · exact absurd hs (by simp)
      · simp [Option.getD, truthy]
      · exact absurd hs (by simp)
      · exact absurd hs (by simp)
      · exact absurd hs (by simp)
      · exact absurd hs (by simp)

theorem wellShapedStyle_parts (s : Dict) (h : wellShapedStyle s = true) :
    wellShapedCat s "color_palette" = true ∧ wellShapedCat s "typography" = true ∧
    wellShapedCat s "layout" = true ∧ wellShapedCat s "visual_style" = true ∧
    (match dget s "brand_description" with
     | some (.vStr _) => true
     | some _ => false
     | none => true) = true ∧
    (match dget s "has_diagrams" with
     | some (.vBool _) => true
     | some _ => false
     | none => true) = true := by
  unfold wellShapedStyle at h
  simp only [Bool.and_eq_true] at h
  tauto

/-- C1: `merge_styles` implements first-write-wins merging.  For every list of
page-style dicts of length at least two (written `a :: b :: rest`) whose
entries are well shaped (category fields are dicts with distinct keys,
`brand_description` a string, `has_diagrams` a boolean, when present), and for
each of the four categories and every key, the merged value is the value of
the first style in list order whose category dict contains a truthy value for
that key; `brand_description` is the first non-empty one in list order; and
`has_diagrams` is the disjunction of the inputs' `has_diagrams` fields with
missing treated as false. -/
theorem C1_merge_first_write_wins (a b : Dict) (rest : List Dict)
    (hws : ∀ s ∈ a :: b :: rest, wellShapedStyle s = true)
    (cat : String)
    (hcat : cat = "color_palette" ∨ cat = "typography" ∨ cat = "layout" ∨
      cat = "visual_style")
    (k : String) :
    ∃ m, merge_styles (a :: b :: rest) = some m ∧
      mLookup m cat k = firstWinsSpec (a :: b :: rest) cat k ∧
      dget m "brand_description" = some (brandSpec (a :: b :: rest)) ∧
      dget m "has_diagrams" = some (.vBool (diagramsSpec (a :: b :: rest))) := by
  refine ⟨mergedDict (a :: b :: rest), rfl, ?_, ?_, ?_⟩
  · have hcats : ∀ c, c = "color_palette" ∨ c = "typography" ∨ c = "layout" ∨
        c = "visual_style" →
        (∀ s ∈ a :: b :: rest, wellShapedCat s c = true) := by
      intro c hc s hsmem
      have hp := wellShapedStyle_parts s (hws s hsmem)
      rcases hc with h | h | h | h <;> subst h
      · exact hp.1
      · exact hp.2.1
      · exact hp.2.2.1
      · exact hp.2.2.2.1
    rcases hcat with h | h | h | h <;> subst h
    · have he : mLookup (mergedDict (a :: b :: rest)) "color_palette" k =
          dget (mergeCategory (a :: b :: rest) "color_palette") k := rfl
      rw [he, mergeCategory_get,
        firstContrib_spec _ _ _ (hcats "color_palette" (by tauto))]
    · have he : mLookup (mergedDict (a :: b :: rest)) "typography" k =
          dget (mergeCategory (a :: b :: rest) "typography") k := rfl
      rw [he, mergeCategory_get,
        firstContrib_spec _ _ _ (hcats "typography" (by tauto))]
    · have he : mLookup (mergedDict (a :: b :: rest)) "layout" k =
          dget (mergeCategory (a :: b :: rest) "layout") k := rfl
      rw [he, mergeCategory_get,
        firstContrib_spec _ _ _ (hcats "layout" (by tauto))]
    · have he : mLookup (mergedDict (a :: b :: rest)) "visual_style" k =
          dget (mergeCategory (a :: b :: rest) "visual_style") k := rfl
      rw [he, mergeCategory_get,
        firstContrib_spec _ _ _ (hcats "visual_style" (by tauto))]
  · have he : dget (mergedDict (a :: b :: rest)) "brand_description" =
        some (mergeBrand (a :: b :: rest)) := rfl
    rw [he, mergeBrand_spec _ (fun s hs => (wellShapedStyle_parts s (hws s hs)).2.2.2.2.1)]
  · have he : dget (mergedDict (a :: b :: rest)) "has_diagrams" =
        some (.vBool (mergeHasDiagrams (a :: b :: rest))) := rfl
    rw [he, mergeHasDiagrams_spec _ (fun s hs => (wellShapedStyle_parts s (hws s hs)).2.2.2.2.2)]

/-- Witness for C1 at a concrete two-style list: the merged primary color is
the first style's, the secondary color comes from the second style, the brand
description is the first non-empty one, and `has_diagrams` is the disjunction. -/
theorem C1_merge_first_write_wins_witness :
    ∃ m, merge_styles
        [[("color_palette", .vDict [("primary", .vStr "#111111")]),
          ("brand_description", .vStr "")],
         [("color_palette", .vDict [("primary", .vStr "#222222"),
            ("secondary", .vStr "#333333")]),
          ("brand_description", .vStr "second style"),
          ("has_diagrams", .vBool true)]] = some m ∧
      mLookup m "color_palette" "primary" =
        firstWinsSpec
          [[("color_palette", .vDict [("primary", .vStr "#111111")]),
            ("brand_description", .vStr "")],
           [("color_palette", .vDict [("primary", .vStr "#222222"),
              ("secondary", .vStr "#333333")]),
            ("brand_description", .vStr "second style"),
            ("has_diagrams", .vBool true)]] "color_palette" "primary" ∧
      dget m "brand_description" =
        some (brandSpec
          [[("color_palette", .vDict [("primary", .vStr "#111111")]),
            ("brand_description", .vStr "")],
           [("color_palette", .vDict [("primary", .vStr "#222222"),
              ("secondary", .vStr "#333333")]),
            ("brand_description", .vStr "second style"),
            ("has_diagrams", .vBool true)]]) ∧
      dget m "has_diagrams" =
        some (.vBool (diagramsSpec
          [[("color_palette", .vDict [("primary", .vStr "#111111")]),
            ("brand_description", .vStr "")],
           [("color_palette", .vDict [("primary", .vStr "#222222"),
              ("secondary", .vStr "#333333")]),
            ("brand_description", .vStr "second style"),
            ("has_diagrams", .vBool true)]])) :=
  C1_merge_first_write_wins
    [("color_palette", .vDict [("primary", .vStr "#111111")]),
     ("brand_description", .vStr "")]
    [("color_palette", .vDict [("primary", .vStr "#222222"),
       ("secondary", .vStr "#333333")]),
     ("brand_description", .vStr "second style"),
     ("has_diagrams", .vBool true)]
    [] (by decide) "color_palette" (Or.inl rfl) "primary"

/-- C9: `merge_styles` is the identity on singleton input (returning the
element's dict unchanged, whatever fields it has or lacks), and returns `None`
on the empty list. -/
theorem C9_merge_singleton_identity :
    merge_styles ([] : List Dict) = none ∧ ∀ s : Dict, merge_styles [s] = some s :=
  ⟨rfl, fun _ => rfl⟩

/-- C7 counterexample: the claim quantifies over every non-empty list of page
styles, but on the singleton `[{}]` the source returns the element unchanged
(`src/app2.py` line 172), so the result is `{}` and contains none of the
standard fields; here shown for `color_palette`. -/
theorem C7_counterexample :
    ¬ (∀ styles : List Dict, styles ≠ [] →
        ∀ m, merge_styles styles = some m → (dget m "color_palette").isSome = true) := by
  intro h
  have := h [[]] (by simp) [] rfl
  simp [dget] at this

/-- A top-level field is a dict when present. -/
def dictWhenPresent (d : Dict) (k : String) : Bool :=
  match dget d k with
  | some (.vDict _) => true
  | some _ => false
  | none => true

/-- Shape under which the source's category loops (and `create_svg_prompt`)
cannot raise: the four category fields are dicts when present.  A truthy
non-dict category value makes the source raise `AttributeError` at
`.items()` / `.get`. -/
def styleShapeOK (d : Dict) : Bool :=
  dictWhenPresent d "color_palette" && dictWhenPresent d "typography" &&
  dictWhenPresent d "layout" && dictWhenPresent d "visual_style"

/-- C7 amended: for every list of page styles of length at least two whose
four category fields are dicts when present (the shape on which the source's
merge loops run without raising at `.items()`), the record returned by
`merge_styles` contains the nested fields `color_palette`, `typography`,
`layout`, `visual_style` and the free-text `brand_description`. -/
theorem C7_merged_record_fields (a b : Dict) (rest : List Dict)
    (_hsh : ∀ s ∈ a :: b :: rest, styleShapeOK s = true) :
    ∃ m, merge_styles (a :: b :: rest) = some m ∧
      (dget m "color_palette").isSome = true ∧
      (dget m "typography").isSome = true ∧
      (dget m "layout").isSome = true ∧
      (dget m "visual_style").isSome = true ∧
      (dget m "brand_description").isSome = true :=
  ⟨mergedDict (a :: b :: rest), rfl, rfl, rfl, rfl, rfl, rfl⟩

/-- Witness for the amended C7 at a concrete two-style list. -/
theorem C7_merged_record_fields_witness :
    ∃ m, merge_styles
        [[("color_palette", .vDict [("primary", .vStr "#111111")])],
         [("brand_description", .vStr "plain")]] = some m ∧
      (dget m "color_palette").isSome = true ∧
      (dget m "typography").isSome = true ∧
      (dget m "layout").isSome = true ∧
      (dget m "visual_style").isSome = true ∧
      (dget m "brand_description").isSome = true :=
  C7_merged_record_fields
    [("color_palette", .vDict [("primary", .vStr "#111111")])]
    [("brand_description", .vStr "plain")] [] (by decide)

/-- Boolean test that the first list is an initial segment of the second. -/
def listStartsWith : List Char → List Char → Bool
  | [], _ => true
  | _ :: _, [] => false
  | a :: as, b :: bs => a = b && listStartsWith as bs

/-- Leftmost index at which the pattern occurs in the string, scanning from
the head; `none` when it never occurs.  This is Python `str.find` except that
Python encodes the missing case as `-1` (see `pyFind`). -/
def findSub (pat : List Char) : List Char → Option Nat
  | [] => if listStartsWith pat [] then some 0 else none
  | c :: t =>
    if listStartsWith pat (c :: t) then some 0
    else (findSub pat t).map (fun n => n + 1)

/-- Python `s.find(pat)`: leftmost occurrence index, `-1` when absent. -/
def pyFind (s pat : List Char) : Int :=
  match findSub pat s with
  | some n => (n : Int)
  | none => -1

/-- Python slice `s[a:b]` on a string, with negative indices counted from the
end and out-of-range bounds clamped. -/
def pySlice (s : List Char) (a b : Int) : List Char :=
  let n : Int := s.length
  let a2 := if a < 0 then max (n + a) 0 else min a n
  let b2 := if b < 0 then max (n + b) 0 else min b n
  (s.drop a2.toNat).take (b2 - a2).toNat

/-- The pattern occurs in `s` at position `i`. -/
def occursAt (pat s : List Char) (i : Nat) : Prop :=
  listStartsWith pat (s.drop i) = true

instance (pat s : List Char) (i : Nat) : Decidable (occursAt pat s i) := by
  unfold occursAt
  infer_instance

theorem listStartsWith_length (pat s : List Char) (h : listStartsWith pat s = true) :
    pat.length ≤ s.length := by
  induction pat generalizing s with
  | nil => simp
  | cons a as ih =>
    cases s with
    | nil => exact absurd h (by simp [listStartsWith])
    | cons b bs =>
      simp only [listStartsWith, Bool.and_eq_true] at h
      simpa using ih bs h.2

theorem findSub_occursAt (pat s : List Char) (m : Nat)
    (h : findSub pat s = some m) : occursAt pat s m := by
  induction s generalizing m with
  | nil =>
    unfold findSub at h
    by_cases hp : listStartsWith pat [] = true
    · rw [if_pos hp] at h
      cases h
      exact hp
    · rw [if_neg hp] at h
      cases h
  | cons c t ih =>
    unfold findSub at h
    by_cases hp : listStartsWith pat (c :: t) = true
    · rw [if_pos hp] at h
      cases h
      exact hp
    · rw [if_neg hp] at h
      rcases hx : findSub pat t with _ | m0
      · rw [hx] at h
        cases h
      · rw [hx] at h
        simp only [Option.map_some'] at h
        cases h
        exact ih m0 hx

theorem findSub_minimal (pat s : List Char) (m : Nat)
    (h : findSub pat s = some m) : ∀ j, j < m → ¬ occursAt pat s j := by
  induction s generalizing m with
  | nil =>
    unfold findSub at h
    by_cases hp : listStartsWith pat [] = true
    · rw [if_pos hp] at h
      cases h
      intro j hj
      exact absurd hj (by omega)
    · rw [if_neg hp] at h
      cases h
  | cons c t ih =>
    unfold findSub at h
    by_cases hp : listStartsWith pat (c :: t) = true
    · rw [if_pos hp] at h
      cases h
      intro j hj
      exact absurd hj (by omega)
    · rw [if_neg hp] at h
      rcases hx : findSub pat t with _ | m0
      · rw [hx] at h
        cases h
      · rw [hx] at h
        simp only [Option.map_some'] at h
        cases h
        intro j hj
        cases j with
        | zero => exact fun hocc => hp hocc
        | succ j0 => exact ih m0 hx j0 (by omega)

theorem findSub_of_occursAt (pat s : List Char) (i : Nat)
    (h : occursAt pat s i) : ∃ m, m ≤ i ∧ findSub pat s = some m := by
  induction s generalizing i with
  | nil =>
    have hp : listStartsWith pat [] = true := by
      have hd : List.drop i ([] : List Char) = [] := by simp
      rw [occursAt, hd] at h
      exact h
    exact ⟨0, Nat.zero_le i, by simp [findSub, hp]⟩
  | cons c t ih =>
    by_cases hp : listStartsWith pat (c :: t) = true
    · exact ⟨0, Nat.zero_le i, by simp [findSub, hp]⟩
    · cases i with
      | zero =>
        rw [occursAt, List.drop_zero] at h
        exact absurd h hp
      | succ i0 =>
        have h0 : occursAt pat t i0 := by
          rw [occursAt] at h ⊢
          simpa using h
        obtain ⟨m, hm, hf⟩ := ih i0 h0
        exact ⟨m + 1, by omega, by simp [findSub, hp, hf]⟩

/-- When `i` is the leftmost occurrence of the pattern, `findSub` returns it. -/
theorem findSub_eq_first (pat s : List Char) (i : Nat)
    (hocc : occursAt pat s i) (hmin : ∀ j, j < i → ¬ occursAt pat s j) :
    findSub pat s = some i := by
  obtain ⟨m, hm, hf⟩ := findSub_of_occursAt pat s i hocc
  rcases Nat.lt_or_ge m i with hlt | hge
  · exact absurd (findSub_occursAt pat s m hf) (hmin m hlt)
  · have : m = i := by omega
    rw [← this]
    exact hf

/-- Effect trace of one API-calling operation: how many `requests.post` calls
it issued, how many `st.error` / `st.warning` reports it emitted, and its
return value. -/
structure Eff (α : Type) where
  posts : Nat
  reports : Nat
  result : α

/-- An HTTP response as the source consumes it: the status code, the parsed
JSON body (`none` models `response.json()` raising), and the raw text. -/
structure HttpResponse where
  status_code : Int
  body : Option PyVal
  text : String

/-- Python subscription `v[k]` with a string key; `none` models the raised
`KeyError` / `TypeError`, which every caller catches. -/
def pyIndexStr (v : PyVal) (k : String) : Option PyVal :=
  match v with
  | .vDict d => dget d k
  | _ => none

/-- Python subscription `v[0]`; `none` models the raised exception. -/
def pyIndexZero (v : PyVal) : Option PyVal :=
  match v with
  | .vList l => l.head?
  | .vStr s =>
    match s.toList with
    | c :: _ => some (.vStr (String.mk [c]))
    | [] => none
  | _ => none

/-- Extraction `result['choices'][0]['message']['content']` shared by the four
API-calling operations; `none` models any raised exception on the way (all
callers catch it).  A non-string `content` value is also `none`: every caller
immediately calls a string method on it (`replace` or `find`), which raises
and is caught. -/
def extractContent (result : PyVal) : Option String :=
  do
    let choices ← pyIndexStr result "choices"
    let first ← pyIndexZero choices
    let message ← pyIndexStr first "message"
    let content ← pyIndexStr message "content"
    match content with
    | .vStr s => some s
    | _ => none

/-- Markdown-fence cleanup applied before `json.loads`
(`src/app2.py` lines 150, 275, 328):
`content.replace('```json', '').replace('```', '').strip()`.
Python `str.strip` is modelled by `String.trim` (same behaviour on ASCII
whitespace, which is all the claims exercise). -/
def cleanFences (content : String) : String :=
  ((content.replace "```json" "").replace "```" "").trim

/-- PPTStyleAnalyzer.analyze_page_image (`src/app2.py` lines 76-164), from the
single `requests.post` on: parameterised by the JSON decoder `loads` (`none`
models `json.JSONDecodeError`) and the HTTP response.  Every failure branch
emits exactly one `st.warning` and returns `None`. -/
def analyze_page_image (loads : String → Option PyVal) (resp : HttpResponse) :
    Eff (Option PyVal) :=
  if resp.status_code = 200 then
    match resp.body with
    | some result =>
      match extractContent result with
      | some content =>
        match loads (cleanFences content) with
        | some style_data => ⟨1, 0, some style_data⟩
        | none => ⟨1, 1, none⟩
      | none => ⟨1, 1, none⟩
    | none => ⟨1, 1, none⟩
  else ⟨1, 1, none⟩

/-- PPTStyleAnalyzer.analyze_ppt_style_single_image (`src/app2.py`
lines 203-283), from the single `requests.post` on: same response handling as
`analyze_page_image`, with `st.error` instead of `st.warning`. -/
def analyze_ppt_style_single_image (loads : String → Option PyVal)
    (resp : HttpResponse) : Eff (Option PyVal) :=
  if resp.status_code = 200 then
    match resp.body with
    | some result =>
      match extractContent result with
      | some content =>
        match loads (cleanFences content) with
        | some style_data => ⟨1, 0, some style_data⟩
        | none => ⟨1, 1, none⟩
      | none => ⟨1, 1, none⟩
    | none => ⟨1, 1, none⟩
  else ⟨1, 1, none⟩

/-- NaturalLanguageProcessor.process_user_request (`src/app2.py`
lines 291-336), from the single `requests.post` on. -/
def process_user_request (loads : String → Option PyVal) (resp : HttpResponse) :
    Eff (Option PyVal) :=
  if resp.status_code = 200 then
    match resp.body with
    | some result =>
      match extractContent result with
      | some content =>
        match loads (cleanFences content) with
        | some content_data => ⟨1, 0, some content_data⟩
        | none => ⟨1, 1, none⟩
      | none => ⟨1, 1, none⟩
    | none => ⟨1, 1, none⟩
  else ⟨1, 1, none⟩

/-- SVGGenerator.generate_svg (`src/app2.py` lines 344-384), from the single
`requests.post` on, given the already-built prompt.  On a 200 response the
model text is searched for the markers:
`svg_start = svg_content.find('<svg')`,
`svg_end = svg_content.find('</svg>') + 6`, and the slice is returned when
both are `!= -1`.  Note `svg_end` is compared to `-1` after the `+ 6`. -/
def generate_svg (prompt : String) (resp : HttpResponse) :
    Eff (Option (List Char) × Option String) :=
  if resp.status_code = 200 then
    match resp.body with
    | some result =>
      match extractContent result with
      | some svg_content =>
        let sc := svg_content.toList
        let svg_start := pyFind sc (String.toList "<svg")
        let svg_end := pyFind sc (String.toList "</svg>") + 6
        if svg_start ≠ -1 ∧ svg_end ≠ -1 then
          ⟨1, 0, (some (pySlice sc svg_start svg_end), some prompt)⟩
        else ⟨1, 1, (none, none)⟩
      | none => ⟨1, 1, (none, none)⟩
    | none => ⟨1, 1, (none, none)⟩
  else ⟨1, 1, (none, none)⟩

/-- C2 (code bug): the source intends to detect a missing `</svg>` marker via
`svg_end != -1`, but `svg_end = svg_content.find('</svg>') + 6` is computed
before the comparison, so a missing `</svg>` yields `svg_end = 5 != -1` and
the check passes.  On a model response whose content is `"A<svg x"` (contains
`<svg`, lacks `</svg>`) the operation reports nothing and returns the
truncated slice `"<svg"` with the prompt, instead of reporting the failure
and returning `(None, None)` as the spec states. -/
theorem C2_missing_end_marker_not_reported :
    pyFind (String.toList "A<svg x") (String.toList "</svg>") = -1 ∧
    (generate_svg "P"
      ⟨200, some (.vDict [("choices", .vList [.vDict [("message",
        .vDict [("content", .vStr "A<svg x")])]])]), ""⟩).result
      = (some (String.toList "<svg"), some "P") ∧
    (generate_svg "P"
      ⟨200, some (.vDict [("choices", .vList [.vDict [("message",
        .vDict [("content", .vStr "A<svg x")])]])]), ""⟩).reports = 0 := by
  refine ⟨by decide, ?_, ?_⟩ <;> rfl

theorem pySlice_natural (s : List Char) (a b : Nat)
    (ha : a ≤ s.length) (hb : b ≤ s.length) :
    pySlice s (a : Int) (b : Int) = (s.drop a).take (b - a) := by
  simp only [pySlice]
  have h1 : ¬((a : Int) < 0) := by omega
  have h2 : ¬((b : Int) < 0) := by omega
  rw [if_neg h1, if_neg h2,
    min_eq_left (by exact_mod_cast ha : (a : Int) ≤ (s.length : Int)),
    min_eq_left (by exact_mod_cast hb : (b : Int) ≤ (s.length : Int)),
    Int.toNat_sub, Int.toNat_natCast]

/-- C3: when the model text contains both markers, `generate_svg` returns
exactly the span of that text from the first occurrence of `<svg` through the
end of the first occurrence of `</svg>` (inclusive), together with the prompt,
regardless of surrounding text. -/
theorem C3_returns_first_marker_span (prompt : String) (resp : HttpResponse)
    (result : PyVal) (content : String) (i j : Nat)
    (hstatus : resp.status_code = 200)
    (hbody : resp.body = some result)
    (hcontent : extractContent result = some content)
    (hocc1 : occursAt (String.toList "<svg") content.toList i)
    (hmin1 : ∀ a, a < i → ¬ occursAt (String.toList "<svg") content.toList a)
    (hocc2 : occursAt (String.toList "</svg>") content.toList j)
    (hmin2 : ∀ a, a < j → ¬ occursAt (String.toList "</svg>") content.toList a) :
    (generate_svg prompt resp).result =
      (some ((content.toList.drop i).take (j + 6 - i)), some prompt) := by
  obtain ⟨st, bd, tx⟩ := resp
  simp only at hstatus hbody
  subst hstatus
  subst hbody
  have hf1 : pyFind content.toList (String.toList "<svg") = (i : Int) := by
    unfold pyFind
    rw [findSub_eq_first _ _ i hocc1 hmin1]
  have hf2 : pyFind content.toList (String.toList "</svg>") = (j : Int) := by
    unfold pyFind
    rw [findSub_eq_first _ _ j hocc2 hmin2]
  have hi : i + 4 ≤ content.toList.length := by
    have hl := listStartsWith_length _ _ hocc1
    simp only [List.length_drop] at hl
    have : (String.toList "<svg").length = 4 := rfl
    omega
  have hj : j + 6 ≤ content.toList.length := by
    have hl := listStartsWith_length _ _ hocc2
    simp only [List.length_drop] at hl
    have : (String.toList "</svg>").length = 6 := rfl
    omega
  have hcond : pyFind content.toList (String.toList "<svg") ≠ -1 ∧
      pyFind content.toList (String.toList "</svg>") + 6 ≠ -1 := by
    rw [hf1, hf2]
    constructor <;> omega
  simp only [generate_svg, hcontent, if_pos rfl]
  rw [if_pos hcond, hf1, hf2]
  have hcast : ((j : Int) + 6) = ((j + 6 : Nat) : Int) := by omega
  rw [hcast, pySlice_natural content.toList i (j + 6) (by omega) hj]
  simp

/-- Witness for C3 on `"ab<svg>1</svg>cd"`: the first `<svg` is at index 2,
the first `</svg>` ends at index 13, and the returned SVG is the span between
them. -/
theorem C3_returns_first_marker_span_witness :
    (generate_svg "P"
      ⟨200, some (.vDict [("choices", .vList [.vDict [("message",
        .vDict [("content", .vStr "ab<svg>1</svg>cd")])]])]), ""⟩).result =
      (some (((String.toList "ab<svg>1</svg>cd").drop 2).take (8 + 6 - 2)),
        some "P") :=
  C3_returns_first_marker_span "P"
    ⟨200, some (.vDict [("choices", .vList [.vDict [("message",
      .vDict [("content", .vStr "ab<svg>1</svg>cd")])]])]), ""⟩
    (.vDict [("choices", .vList [.vDict [("message",
      .vDict [("content", .vStr "ab<svg>1</svg>cd")])]])])
    "ab<svg>1</svg>cd" 2 8 rfl rfl rfl (by decide) (by decide) (by decide)
    (by decide)

/-- Per-page results collected by `analyze_pdf_with_gpt4v` (`src/app2.py`
lines 36-58): pages `0 .. min(10, page_count) - 1` are rendered and analysed,
and a page's style is kept only when the analysis returned a truthy value.
The per-page network call and rendering are abstracted by `analyzePage`
(`none` = the page analysis failed or returned a falsy value). -/
def collectedStyles (page_count : Nat) (analyzePage : Nat → Option Dict) :
    List Dict :=
  (List.range (min 10 page_count)).filterMap
    (fun p =>
      match analyzePage p with
      | some d => if truthy (.vDict d) then some d else none
      | none => none)

/-- PPTStyleAnalyzer.analyze_pdf_with_gpt4v (`src/app2.py` lines 26-74):
`None` when no page produced a style, otherwise the merge of the collected
styles.  Exceptions raised anywhere inside (including by `merge_styles` on a
non-dict parse) are caught by the enclosing `except` into the `None` result;
the embedding's `analyzePage` abstraction carries dict results, which is the
only shape `merge_styles` accepts without raising. -/
def analyze_pdf_with_gpt4v (page_count : Nat)
    (analyzePage : Nat → Option Dict) : Option Dict :=
  let all_styles := collectedStyles page_count analyzePage
  if all_styles.isEmpty then none else merge_styles all_styles

theorem filterMap_congr_on {α β : Type} (l : List α) (f g : α → Option β)
    (h : ∀ x ∈ l, f x = g x) : l.filterMap f = l.filterMap g := by
  induction l with
  | nil => rfl
  | cons a t ih =>
    rw [List.filterMap_cons, List.filterMap_cons,
      h a (List.mem_cons_self a t),
      ih (fun x hx => h x (List.mem_cons_of_mem a hx))]

/-- C8: `analyze_pdf_with_gpt4v` analyses at most `min(10, page_count)` pages.
For a PDF with more than 10 pages exactly the first 10 pages are processed,
and the result does not depend on what any page from index 10 on would have
produced: two per-page analysis functions agreeing on pages 0-9 give the same
merged style. -/
theorem C8_at_most_ten_pages (page_count : Nat) (f g : Nat → Option Dict)
    (hc : 10 < page_count) (hfg : ∀ p, p < 10 → f p = g p) :
    min 10 page_count = 10 ∧
    analyze_pdf_with_gpt4v page_count f = analyze_pdf_with_gpt4v page_count g := by
  have hmin : min 10 page_count = 10 := by omega
  have hcoll : collectedStyles page_count f = collectedStyles page_count g := by
    unfold collectedStyles
    rw [hmin]
    exact filterMap_congr_on _ _ _
      (fun p hp => by rw [hfg p (List.mem_range.mp hp)])
  exact ⟨hmin, by unfold analyze_pdf_with_gpt4v; rw [hcoll]⟩

/-- Witness for C8 at a 12-page document with all page analyses failing. -/
theorem C8_at_most_ten_pages_witness :
    min 10 12 = 10 ∧
    analyze_pdf_with_gpt4v 12 (fun _ => none) =
      analyze_pdf_with_gpt4v 12 (fun _ => none) :=
  C8_at_most_ten_pages 12 (fun _ => none) (fun _ => none) (by decide)
    (fun _ _ => rfl)

/-- C5: on every HTTP response with a status code other than 200, each of the
four API-calling operations issues exactly one POST (the `posts` count is 1,
there being a single `requests.post` per invocation and no retry or backoff),
reports the failure exactly once, and returns `None` (for `generate_svg`,
`(None, None)`). -/
theorem C5_non_200_single_post_no_retry (loads : String → Option PyVal)
    (prompt : String) (resp : HttpResponse) (h : resp.status_code ≠ 200) :
    ((analyze_page_image loads resp).posts = 1 ∧
      (analyze_page_image loads resp).reports = 1 ∧
      (analyze_page_image loads resp).result = none) ∧
    ((analyze_ppt_style_single_image loads resp).posts = 1 ∧
      (analyze_ppt_style_single_image loads resp).reports = 1 ∧
      (analyze_ppt_style_single_image loads resp).result = none) ∧
    ((process_user_request loads resp).posts = 1 ∧
      (process_user_request loads resp).reports = 1 ∧
      (process_user_request loads resp).result = none) ∧
    ((generate_svg prompt resp).posts = 1 ∧
      (generate_svg prompt resp).reports = 1 ∧
      (generate_svg prompt resp).result = (none, none)) := by
  refine ⟨⟨?_, ?_, ?_⟩, ⟨?_, ?_, ?_⟩, ⟨?_, ?_, ?_⟩, ⟨?_, ?_, ?_⟩⟩ <;>
    simp [analyze_page_image, analyze_ppt_style_single_image,
      process_user_request, generate_svg, h]

/-- Witness for C5 at a concrete 404 response. -/
theorem C5_non_200_single_post_no_retry_witness :
    ((analyze_page_image (fun _ => none) ⟨404, none, "err"⟩).posts = 1 ∧
      (analyze_page_image (fun _ => none) ⟨404, none, "err"⟩).reports = 1 ∧
      (analyze_page_image (fun _ => none) ⟨404, none, "err"⟩).result = none) ∧
    ((analyze_ppt_style_single_image (fun _ => none) ⟨404, none, "err"⟩).posts = 1 ∧
      (analyze_ppt_style_single_image (fun _ => none) ⟨404, none, "err"⟩).reports = 1 ∧
      (analyze_ppt_style_single_image (fun _ => none) ⟨404, none, "err"⟩).result = none) ∧
    ((process_user_request (fun _ => none) ⟨404, none, "err"⟩).posts = 1 ∧
      (process_user_request (fun _ => none) ⟨404, none, "err"⟩).reports = 1 ∧
      (process_user_request (fun _ => none) ⟨404, none, "err"⟩).result = none) ∧
    ((generate_svg "P" ⟨404, none, "err"⟩).posts = 1 ∧
      (generate_svg "P" ⟨404, none, "err"⟩).reports = 1 ∧
      (generate_svg "P" ⟨404, none, "err"⟩).result = (none, none)) :=
  C5_non_200_single_post_no_retry (fun _ => none) "P" ⟨404, none, "err"⟩
    (by decide)

theorem merge_styles_of_ne_nil (l : List Dict) (h : l ≠ []) :
    ∃ d, merge_styles l = some d := by
  match l with
  | [] => exact absurd rfl h
  | [s] => exact ⟨s, rfl⟩
  | a :: b :: rest => exact ⟨mergedDict (a :: b :: rest), rfl⟩

/-- C6: every failure inside the API-calling operations (non-200 status, a
raising `response.json()`, a malformed response shape, a JSON decode failure
of the model content — all modelled as the caught-exception branches of the
source's `try`/`except`) leaves the caller with `None`; the result is binary:
`None`, or exactly the parsed data (for `analyze_pdf_with_gpt4v`, exactly the
merge of the collected page styles). -/
theorem C6_failures_caught_binary_result (loads : String → Option PyVal)
    (resp : HttpResponse) (page_count : Nat) (f : Nat → Option Dict) :
    ((analyze_page_image loads resp).result = none ∨
      ∃ v body content, resp.status_code = 200 ∧ resp.body = some body ∧
        extractContent body = some content ∧
        loads (cleanFences content) = some v ∧
        (analyze_page_image loads resp).result = some v) ∧
    ((process_user_request loads resp).result = none ∨
      ∃ v body content, resp.status_code = 200 ∧ resp.body = some body ∧
        extractContent body = some content ∧
        loads (cleanFences content) = some v ∧
        (process_user_request loads resp).result = some v) ∧
    (analyze_pdf_with_gpt4v page_count f = none ∨
      ∃ d, collectedStyles page_count f ≠ [] ∧
        merge_styles (collectedStyles page_count f) = some d ∧
        analyze_pdf_with_gpt4v page_count f = some d) := by
  refine ⟨?_, ?_, ?_⟩
  · by_cases hst : resp.status_code = 200
    · rcases hb : resp.body with _ | body
      · left
        simp [analyze_page_image, hst, hb]
      · rcases hec : extractContent body with _ | content
        · left
          simp [analyze_page_image, hst, hb, hec]
        · rcases hl : loads (cleanFences content) with _ | v
          · left
            simp [analyze_page_image, hst, hb, hec, hl]
          · right
            exact ⟨v, body, content, hst, rfl, hec, hl,
              by simp [analyze_page_image, hst, hb, hec, hl]⟩
    · left
      simp [analyze_page_image, hst]
  · by_cases hst : resp.status_code = 200
    · rcases hb : resp.body with _ | body
      · left
        simp [process_user_request, hst, hb]
      · rcases hec : extractContent body with _ | content
        · left
          simp [process_user_request, hst, hb, hec]
        · rcases hl : loads (cleanFences content) with _ | v
          · left
            simp [process_user_request, hst, hb, hec, hl]
          · right
            exact ⟨v, body, content, hst, rfl, hec, hl,
              by simp [process_user_request, hst, hb, hec, hl]⟩
    · left
      simp [process_user_request, hst]
  · rcases hcs : collectedStyles page_count f with _ | ⟨s, rest⟩
    · left
      simp [analyze_pdf_with_gpt4v, hcs]
    · right
      obtain ⟨d, hd⟩ := merge_styles_of_ne_nil (s :: rest) (by simp)
      refine ⟨d, by simp, hd, ?_⟩
      simp only [analyze_pdf_with_gpt4v, hcs]
      simpa using hd

/-- A slide-generation result (`src/app2.py` lines 488-493). -/
structure SlideResult where
  svg_content : List Char
  extracted_style : PyVal
  processed_content : PyVal
  final_prompt : Option String

/-- PPTGenerationPipeline.generate_ppt_slide (`src/app2.py` lines 457-493).
The three stages — style analysis, natural-language processing, SVG
generation on the two previous results — are abstracted by their outcomes:
`styleStage` and `contentStage` are the values the first two calls return
(`none` = Python `None`), and `svgStage` is the third call as a function of
the two earlier results, so that the data flow of the source is preserved.
Each `if not ...:` falsy check of the source appears as written. -/
def generate_ppt_slide (styleStage : Option PyVal) (contentStage : Option PyVal)
    (svgStage : PyVal → PyVal → Option (List Char) × Option String) :
    Option SlideResult :=
  match styleStage with
  | none => none
  | some style_data =>
    if truthy style_data = false then none
    else
      match contentStage with
      | none => none
      | some content_data =>
        if truthy content_data = false then none
        else
          match svgStage style_data content_data with
          | (some svg_content, final_prompt) =>
            if svg_content.isEmpty then none
            else some ⟨svg_content, style_data, content_data, final_prompt⟩
          | (none, _) => none

/-- C4: the pipeline runs style analysis, then content extraction, then SVG
generation on the two earlier results, in that fixed order.  When a stage
yields a falsy result the pipeline returns `None` whatever the later stages
would have produced (they are never invoked), and on success the returned
record carries `svg_content`, `extracted_style`, `processed_content` and
`final_prompt`. -/
theorem C4_pipeline_order_and_short_circuit :
    (∀ c f, generate_ppt_slide none c f = none) ∧
    (∀ s c f, truthy s = false → generate_ppt_slide (some s) c f = none) ∧
    (∀ s f, generate_ppt_slide (some s) none f = none) ∧
    (∀ s c f, truthy c = false → generate_ppt_slide (some s) (some c) f = none) ∧
    (∀ s c f p, f s c = (none, p) →
      generate_ppt_slide (some s) (some c) f = none) ∧
    (∀ s c f p, f s c = (some [], p) →
      generate_ppt_slide (some s) (some c) f = none) ∧
    (∀ s c f svg p, truthy s = true → truthy c = true →
      f s c = (some svg, p) → svg ≠ [] →
      generate_ppt_slide (some s) (some c) f = some ⟨svg, s, c, p⟩) := by
  refine ⟨fun c f => rfl, ?_, ?_, ?_, ?_, ?_, ?_⟩
  · intro s c f h
    simp [generate_ppt_slide, h]
  · intro s f
    unfold generate_ppt_slide
    cases htr : truthy s <;> simp [htr]
  · intro s c f h
    unfold generate_ppt_slide
    cases htr : truthy s <;> simp [htr, h]
  · intro s c f p h
    unfold generate_ppt_slide
    cases htr : truthy s <;> cases htc : truthy c <;> simp [htr, htc, h]
  · intro s c f p h
    unfold generate_ppt_slide
    cases htr : truthy s <;> cases htc : truthy c <;> simp [htr, htc, h]
  · intro s c f svg p hs hc hf hne
    unfold generate_ppt_slide
    simp [hs, hc, hf, hne]

/-- Witness for C4: a successful run through the three stages at concrete
values produces the four-field record. -/
theorem C4_pipeline_order_and_short_circuit_witness :
    generate_ppt_slide (some (.vDict [("k", .vStr "v")]))
      (some (.vDict [("t", .vStr "u")]))
      (fun _ _ => (some (String.toList "<svg></svg>"), some "P")) =
      some ⟨String.toList "<svg></svg>", .vDict [("k", .vStr "v")],
        .vDict [("t", .vStr "u")], some "P"⟩ :=
  C4_pipeline_order_and_short_circuit.2.2.2.2.2.2
    (.vDict [("k", .vStr "v")]) (.vDict [("t", .vStr "u")])
    (fun _ _ => (some (String.toList "<svg></svg>"), some "P"))
    (String.toList "<svg></svg>") (some "P") (by decide) (by decide) rfl
    (by decide)

mutual

/-- Python `repr()` restricted to the values `PyVal` models (quote selection
and escaping inside strings are not modelled; no claim exercises them). -/
def pyRepr : PyVal → String
  | .vNull => "None"
  | .vBool true => "True"
  | .vBool false => "False"
  | .vInt i => toString i
  | .vStr s => "\x27" ++ s ++ "\x27"
  | .vList l => "[" ++ pyReprList l ++ "]"
  | .vDict d => "\x7b" ++ pyReprDict d ++ "\x7d"

def pyReprList : List PyVal → String
  | [] => ""
  | [x] => pyRepr x
  | x :: xs => pyRepr x ++ ", " ++ pyReprList xs

def pyReprDict : List (String × PyVal) → String
  | [] => ""
  | [(k, v)] => "\x27" ++ k ++ "\x27: " ++ pyRepr v
  | (k, v) :: xs => "\x27" ++ k ++ "\x27: " ++ pyRepr v ++ ", " ++ pyReprDict xs

end

/-- Python `str()`, as used by f-string interpolation. -/
def pyStr : PyVal → String
  | .vStr s => s
  | v => pyRepr v

/-- Python `v.get(k, default)`: `none` models the `AttributeError` raised when
`v` is not a dict (the default is returned only when the key is absent; a
present falsy value is kept). -/
def pyGetD (v : PyVal) (k : String) (dflt : PyVal) : Option PyVal :=
  match v with
  | .vDict d => some ((dget d k).getD dflt)
  | _ => none

/-- Python `', '.join(v)`: joins a list of strings; iterating a string joins
its characters and iterating a dict joins its keys; `none` models the
`TypeError` raised on a non-iterable or a non-string element. -/
def allStrings : List PyVal → Option (List String)
  | [] => some []
  | x :: xs =>
    match x with
    | .vStr s =>
      (match allStrings xs with
       | some rest => some (s :: rest)
       | none => none)
    | _ => none

def pyJoinComma : PyVal → Option String
  | .vList l =>
    match allStrings l with
    | some ss => some (String.intercalate ", " ss)
    | none => none
  | .vStr s => some (String.intercalate ", " (s.toList.map (fun c => String.mk [c])))
  | .vDict d => some (String.intercalate ", " (d.map Prod.fst))
  | _ => none

/-- The fixed fallback prompt of `create_svg_prompt` (`src/app2.py` line 388). -/
def fallbackPrompt : String := "Create a simple SVG diagram for a presentation slide"

/-- The f-string template of `create_svg_prompt` (`src/app2.py`
lines 412-446), as a function of its thirteen interpolated slots. -/
def promptTemplate (content_type main_topic elements primary_color
    secondary_color accent_color background_color text_color title_font
    body_font alignment title_position design_approach : String) : String :=
  "\nGenerate a clean, professional SVG diagram for a presentation slide matching this exact style:\n\nCONTENT REQUIREMENTS:\n- Type: " ++
  content_type ++ "\n- Topic: " ++ main_topic ++ "\n- Elements needed: " ++
  elements ++ "\n\nSTYLE SPECIFICATIONS:\n- Colors: Primary " ++
  primary_color ++ ", Secondary " ++ secondary_color ++ ", Accent " ++
  accent_color ++ "\n- Background: " ++ background_color ++
  "\n- Text color: " ++ text_color ++ "\n- Fonts: Title \"" ++ title_font ++
  "\", Body \"" ++ body_font ++ "\"\n- Layout: " ++ alignment ++
  " aligned, title " ++ title_position ++ "\n- Design approach: " ++
  design_approach ++
  "\n\nSVG REQUIREMENTS:\n- Create a complete SVG (width=\"1024\" height=\"768\")\n- Clean, simple shapes - circles, rectangles, lines only\n- Professional presentation quality\n- Readable text with appropriate font sizes\n- Proper spacing and margins\n- Use exact color codes specified above\n- Include title and clear labels\n- Simple, educational diagram style (NOT artistic or 3D)\n\nIMPORTANT: Respond with ONLY the complete SVG code, starting with <svg> and ending with </svg>. Do not include any explanation or markdown formatting.\n\nExample structure for neural network:\n- Use circles for nodes\n- Use straight lines for connections  \n- Label each layer clearly\n- Keep it flat and 2D\n- Use grid-like positioning\n"

/-- SVGGenerator.create_svg_prompt (`src/app2.py` lines 386-448).  A falsy
input gives the fixed fallback prompt; otherwise the style and content slots
are read with `.get` defaults in source order; `none` models the
`AttributeError` / `TypeError` raised (and not caught anywhere before the
pipeline) when a lookup is attempted on a truthy non-dict or the element join
receives a non-iterable. -/
def create_svg_prompt (style_data content_data : PyVal) : Option String :=
  if truthy style_data = false ∨ truthy content_data = false then
    some fallbackPrompt
  else
    match pyGetD style_data "color_palette" (.vDict []) with
    | none => none
    | some colors =>
    match pyGetD colors "primary" (.vStr "#1f4e79") with
    | none => none
    | some primary_color =>
    match pyGetD colors "secondary" (.vStr "#5b9bd5") with
    | none => none
    | some secondary_color =>
    match pyGetD colors "accent" (.vStr "#f79646") with
    | none => none
    | some accent_color =>
    match pyGetD colors "background" (.vStr "#ffffff") with
    | none => none
    | some background_color =>
    match pyGetD colors "text" (.vStr "#2f2f2f") with
    | none => none
    | some text_color =>
    match pyGetD style_data "typography" (.vDict []) with
    | none => none
    | some typography =>
    match pyGetD typography "title_font" (.vStr "Arial Bold") with
    | none => none
    | some title_font =>
    match pyGetD typography "body_font" (.vStr "Arial Regular") with
    | none => none
    | some body_font =>
    match pyGetD style_data "layout" (.vDict []) with
    | none => none
    | some layout =>
    match pyGetD layout "alignment" (.vStr "center") with
    | none => none
    | some alignment =>
    match pyGetD layout "title_position" (.vStr "top-center") with
    | none => none
    | some title_position =>
    match pyGetD style_data "visual_style" (.vDict []) with
    | none => none
    | some visual_style =>
    match pyGetD visual_style "design_approach" (.vStr "professional") with
    | none => none
    | some design_approach =>
    match pyGetD content_data "content_type" (.vStr "diagram") with
    | none => none
    | some content_type =>
    match pyGetD content_data "main_topic" (.vStr "Technical diagram") with
    | none => none
    | some main_topic =>
    match pyGetD content_data "specific_elements" (.vList []) with
    | none => none
    | some specific_elements =>
    match pyJoinComma specific_elements with
    | none => none
    | some elements =>
    some (promptTemplate (pyStr content_type) (pyStr main_topic) elements
      (pyStr primary_color) (pyStr secondary_color) (pyStr accent_color)
      (pyStr background_color) (pyStr text_color) (pyStr title_font)
      (pyStr body_font) (pyStr alignment) (pyStr title_position)
      (pyStr design_approach))

/-- Category dict of a style field, `[]` when the field is absent or not a
dict (claim-side helper). -/
def catOf (d : Dict) (k : String) : Dict :=
  match dget d k with
  | some (.vDict x) => x
  | _ => []

/-- Claim-side style slot: the looked-up value rendered by `str()`, or the
fixed default when the key is missing. -/
def slotOf (d : Dict) (cat k dflt : String) : String :=
  pyStr ((dget (catOf d cat) k).getD (.vStr dflt))

/-- Claim-side content slot: the looked-up value rendered by `str()`, or the
fixed default when the key is missing. -/
def contentSlotOf (d : Dict) (k dflt : String) : String :=
  pyStr ((dget d k).getD (.vStr dflt))

/-- Claim-side joined element list: the string elements of
`specific_elements` joined by `", "` (empty when the field is absent). -/
def elementsOf (d : Dict) : String :=
  String.intercalate ", "
    (List.filterMap
      (fun x =>
        match x with
        | .vStr s => some s
        | _ => none)
      (match dget d "specific_elements" with
       | some (.vList l) => l
       | _ => []))

/-- Content input shape under which `create_svg_prompt` cannot raise:
`specific_elements`, when present, is a list of strings. -/
def contentShapeOK (d : Dict) : Bool :=
  match dget d "specific_elements" with
  | some (.vList l) => l.all (fun x =>
      match x with
      | .vStr _ => true
      | _ => false)
  | some _ => false
  | none => true

/-- The string `v` appears (contiguously) inside `s`. -/
def containsSlot (s v : String) : Prop := ∃ x y, s = x ++ v ++ y

theorem containsSlot_appendl (s t v : String) (h : containsSlot s v) :
    containsSlot (s ++ t) v := by
  obtain ⟨x, y, rfl⟩ := h
  exact ⟨x, y ++ t, (String.append_assoc (x ++ v) y t)⟩

theorem containsSlot_append_self (s v : String) : containsSlot (s ++ v) v :=
  ⟨s, "", by rw [String.append_empty]⟩

theorem promptTemplate_contains_all
    (ct mt el pc sc ac bg tc tf bf al tp da : String) :
    containsSlot (promptTemplate ct mt el pc sc ac bg tc tf bf al tp da) ct ∧
    containsSlot (promptTemplate ct mt el pc sc ac bg tc tf bf al tp da) mt ∧
    containsSlot (promptTemplate ct mt el pc sc ac bg tc tf bf al tp da) el ∧
    containsSlot (promptTemplate ct mt el pc sc ac bg tc tf bf al tp da) pc ∧
    containsSlot (promptTemplate ct mt el pc sc ac bg tc tf bf al tp da) sc ∧
    containsSlot (promptTemplate ct mt el pc sc ac bg tc tf bf al tp da) ac ∧
    containsSlot (promptTemplate ct mt el pc sc ac bg tc tf bf al tp da) bg ∧
    containsSlot (promptTemplate ct mt el pc sc ac bg tc tf bf al tp da) tc ∧
    containsSlot (promptTemplate ct mt el pc sc ac bg tc tf bf al tp da) tf ∧
    containsSlot (promptTemplate ct mt el pc sc ac bg tc tf bf al tp da) bf ∧
    containsSlot (promptTemplate ct mt el pc sc ac bg tc tf bf al tp da) al ∧
    containsSlot (promptTemplate ct mt el pc sc ac bg tc tf bf al tp da) tp ∧
    containsSlot (promptTemplate ct mt el pc sc ac bg tc tf bf al tp da) da := by
  unfold promptTemplate
  refine ⟨?_, ?_, ?_, ?_, ?_, ?_, ?_, ?_, ?_, ?_, ?_, ?_, ?_⟩ <;>
    repeat (first
      | exact containsSlot_append_self _ _
      | apply containsSlot_appendl)

theorem pyGetD_vDict (d : Dict) (k : String) (dflt : PyVal) :
    pyGetD (.vDict d) k dflt = some ((dget d k).getD dflt) := rfl

theorem getD_dictShape (d : Dict) (k : String) (h : dictWhenPresent d k = true) :
    (dget d k).getD (.vDict []) = .vDict (catOf d k) := by
  revert h
  unfold dictWhenPresent catOf
  rcases dget d k with _ | v
  · intro _
    rfl
  · rcases v with _ | b | i | t | l | x
    · exact fun h => absurd h (by simp)
    · exact fun h => absurd h (by simp)
    · exact fun h => absurd h (by simp)
    · exact fun h => absurd h (by simp)
    · exact fun h => absurd h (by simp)
    · intro _
      rfl

theorem allStrings_of_all (l : List PyVal)
    (h : l.all (fun x =>
      match x with
      | .vStr _ => true
      | _ => false) = true) :
    allStrings l =
      some (l.filterMap (fun x =>
        match x with
        | .vStr s => some s
        | _ => none)) := by
  induction l with
  | nil => rfl
  | cons a t ih =>
    simp only [List.all_cons, Bool.and_eq_true] at h
    rcases a with _ | b | i | s | la | da
    · exact absurd h.1 (by simp)
    · exact absurd h.1 (by simp)
    · exact absurd h.1 (by simp)
    · simp only [allStrings, ih h.2, List.filterMap_cons]
    · exact absurd h.1 (by simp)
    · exact absurd h.1 (by simp)

theorem joinComma_shape (d : Dict) (h : contentShapeOK d = true) :
    pyJoinComma ((dget d "specific_elements").getD (.vList [])) =
      some (elementsOf d) := by
  revert h
  unfold contentShapeOK elementsOf
  rcases dget d "specific_elements" with _ | v
  · intro _
    rfl
  · rcases v with _ | b | i | t | l | x
    · exact fun h => absurd h (by simp)
    · exact fun h => absurd h (by simp)
    · exact fun h => absurd h (by simp)
    · exact fun h => absurd h (by simp)
    · intro h
      simp only [Option.getD, pyJoinComma]
      rw [allStrings_of_all l h]
    · exact fun h => absurd h (by simp)

/-- C10 counterexample: `create_svg_prompt` is not total on truthy inputs.
With `style_data = {"color_palette": "blue"}` (truthy, shaped like a plausible
model reply) the source raises `AttributeError` at `colors.get('primary',...)`
because `colors` is a string; the exception is modelled by `none` and
propagates out of the three-stage pipeline uncaught. -/
theorem C10_counterexample :
    truthy (.vDict [("color_palette", .vStr "blue")]) = true ∧
    truthy (.vDict [("content_type", .vStr "diagram")]) = true ∧
    create_svg_prompt (.vDict [("color_palette", .vStr "blue")])
      (.vDict [("content_type", .vStr "diagram")]) = none :=
  ⟨rfl, rfl, rfl⟩

/-- C10 amended: if either input is falsy, `create_svg_prompt` returns the
fixed fallback prompt.  On truthy dict inputs whose category fields
(`color_palette`, `typography`, `layout`, `visual_style`) are dicts when
present and whose `specific_elements`, when present, is a list of strings, it
never fails: every missing key is replaced by its fixed default (primary
color `#1f4e79`, title font `Arial Bold`, alignment `center`, content type
`diagram`, ...), and the resulting prompt contains a value for every style
and content slot.  (Totality does not extend to truthy inputs with a
non-dict category value: see the counterexample.) -/
theorem C10_prompt_fallback_and_defaults :
    (∀ sd cd : PyVal, truthy sd = false ∨ truthy cd = false →
      create_svg_prompt sd cd = some fallbackPrompt) ∧
    (∀ d1 d2 : Dict, truthy (.vDict d1) = true → truthy (.vDict d2) = true →
      styleShapeOK d1 = true → contentShapeOK d2 = true →
      ∃ p, create_svg_prompt (.vDict d1) (.vDict d2) = some p ∧
        p = promptTemplate
          (contentSlotOf d2 "content_type" "diagram")
          (contentSlotOf d2 "main_topic" "Technical diagram")
          (elementsOf d2)
          (slotOf d1 "color_palette" "primary" "#1f4e79")
          (slotOf d1 "color_palette" "secondary" "#5b9bd5")
          (slotOf d1 "color_palette" "accent" "#f79646")
          (slotOf d1 "color_palette" "background" "#ffffff")
          (slotOf d1 "color_palette" "text" "#2f2f2f")
          (slotOf d1 "typography" "title_font" "Arial Bold")
          (slotOf d1 "typography" "body_font" "Arial Regular")
          (slotOf d1 "layout" "alignment" "center")
          (slotOf d1 "layout" "title_position" "top-center")
          (slotOf d1 "visual_style" "design_approach" "professional") ∧
        (dget (catOf d1 "color_palette") "primary" = none →
          slotOf d1 "color_palette" "primary" "#1f4e79" = "#1f4e79") ∧
        (dget (catOf d1 "typography") "title_font" = none →
          slotOf d1 "typography" "title_font" "Arial Bold" = "Arial Bold") ∧
        (dget (catOf d1 "layout") "alignment" = none →
          slotOf d1 "layout" "alignment" "center" = "center") ∧
        (dget d2 "content_type" = none →
          contentSlotOf d2 "content_type" "diagram" = "diagram") ∧
        containsSlot p (contentSlotOf d2 "content_type" "diagram") ∧
        containsSlot p (contentSlotOf d2 "main_topic" "Technical diagram") ∧
        containsSlot p (elementsOf d2) ∧
        containsSlot p (slotOf d1 "color_palette" "primary" "#1f4e79") ∧
        containsSlot p (slotOf d1 "color_palette" "secondary" "#5b9bd5") ∧
        containsSlot p (slotOf d1 "color_palette" "accent" "#f79646") ∧
        containsSlot p (slotOf d1 "color_palette" "background" "#ffffff") ∧
        containsSlot p (slotOf d1 "color_palette" "text" "#2f2f2f") ∧
        containsSlot p (slotOf d1 "typography" "title_font" "Arial Bold") ∧
        containsSlot p (slotOf d1 "typography" "body_font" "Arial Regular") ∧
        containsSlot p (slotOf d1 "layout" "alignment" "center") ∧
        containsSlot p (slotOf d1 "layout" "title_position" "top-center") ∧
        containsSlot p (slotOf d1 "visual_style" "design_approach" "professional")) := by
  constructor
  · intro sd cd h
    unfold create_svg_prompt
    rw [if_pos h]
  · intro d1 d2 h1 h2 hs hc
    have hs4 : dictWhenPresent d1 "color_palette" = true ∧
        dictWhenPresent d1 "typography" = true ∧
        dictWhenPresent d1 "layout" = true ∧
        dictWhenPresent d1 "visual_style" = true := by
      unfold styleShapeOK at hs
      simp only [Bool.and_eq_true] at hs
      tauto
    have e1 : pyGetD (.vDict d1) "color_palette" (.vDict []) =
        some (.vDict (catOf d1 "color_palette")) := by
      rw [pyGetD_vDict, getD_dictShape d1 _ hs4.1]
    have e2 : pyGetD (.vDict d1) "typography" (.vDict []) =
        some (.vDict (catOf d1 "typography")) := by
      rw [pyGetD_vDict, getD_dictShape d1 _ hs4.2.1]
    have e3 : pyGetD (.vDict d1) "layout" (.vDict []) =
        some (.vDict (catOf d1 "layout")) := by
      rw [pyGetD_vDict, getD_dictShape d1 _ hs4.2.2.1]
    have e4 : pyGetD (.vDict d1) "visual_style" (.vDict []) =
        some (.vDict (catOf d1 "visual_style")) := by
      rw [pyGetD_vDict, getD_dictShape d1 _ hs4.2.2.2]
    have ej := joinComma_shape d2 hc
    have hall := promptTemplate_contains_all
      (contentSlotOf d2 "content_type" "diagram")
      (contentSlotOf d2 "main_topic" "Technical diagram")
      (elementsOf d2)
      (slotOf d1 "color_palette" "primary" "#1f4e79")
      (slotOf d1 "color_palette" "secondary" "#5b9bd5")
      (slotOf d1 "color_palette" "accent" "#f79646")
      (slotOf d1 "color_palette" "background" "#ffffff")
      (slotOf d1 "color_palette" "text" "#2f2f2f")
      (slotOf d1 "typography" "title_font" "Arial Bold")
      (slotOf d1 "typography" "body_font" "Arial Regular")
      (slotOf d1 "layout" "alignment" "center")
      (slotOf d1 "layout" "title_position" "top-center")
      (slotOf d1 "visual_style" "design_approach" "professional")
    refine ⟨_, ?_, rfl,
      fun h => by simp [slotOf, h, pyStr],
      fun h => by simp [slotOf, h, pyStr],
      fun h => by simp [slotOf, h, pyStr],
      fun h => by simp [contentSlotOf, h, pyStr],
      hall.1, hall.2.1, hall.2.2.1, hall.2.2.2.1, hall.2.2.2.2.1,
      hall.2.2.2.2.2.1, hall.2.2.2.2.2.2.1, hall.2.2.2.2.2.2.2.1,
      hall.2.2.2.2.2.2.2.2.1, hall.2.2.2.2.2.2.2.2.2.1,
      hall.2.2.2.2.2.2.2.2.2.2.1, hall.2.2.2.2.2.2.2.2.2.2.2.1,
      hall.2.2.2.2.2.2.2.2.2.2.2.2⟩
    unfold create_svg_prompt
    rw [if_neg (by simp [h1, h2])]
    simp only [e1, e2, e3, e4, pyGetD_vDict, ej]
    rfl

/-- Witness for C10 on a truthy style with a missing primary color and a
truthy content request with a missing content type: the prompt is produced and
contains the documented defaults and the provided values. -/
theorem C10_prompt_fallback_and_defaults_witness :
    ∃ p, create_svg_prompt
        (.vDict [("color_palette", .vDict [("secondary", .vStr "#0000ff")])])
        (.vDict [("main_topic", .vStr "Flow")]) = some p ∧
      containsSlot p "#1f4e79" ∧ containsSlot p "Flow" ∧
      containsSlot p "Arial Bold" ∧ containsSlot p "center" := by
  obtain ⟨p, heq, hp, hd3, hd4, hd5, hd6, hc1, hc2, hc3, hc4, hc5, hc6, hc7,
      hc8, hc9, hc10, hc11, hc12, hc13⟩ :=
    C10_prompt_fallback_and_defaults.2
      [("color_palette", .vDict [("secondary", .vStr "#0000ff")])]
      [("main_topic", .vStr "Flow")] (by decide) (by decide) (by decide)
      (by decide)
  exact ⟨p, heq, hc4, hc2, hc9, hc11⟩
